import Mathlib

/-
Verification of the gesture-response orchestrator of the interactive-avatar
repository.  The definitions below are shallow embeddings of the TypeScript
source files:

  * src/types/avatar.ts            (GestureType, AvatarState, AvatarMood,
                                    GestureResponse)
  * src/components/avatar/AvatarStates.ts
                                   (GESTURE_RESPONSES, getAvatarResponse)
  * src/hooks/useVideoAvatar.ts    (VideoState, VideoTransition,
                                    gestureToVideo, TRANSITION_CONFIG,
                                    getTargetVideo, startTransition,
                                    handleGestureChange, getVideoOpacity,
                                    the animateTransition callback and the
                                    auto-revert setTimeout)
  * src/lib/Recognizer.ts          (the updateResults per-frame loop body)

JavaScript object lookup that can yield `undefined` is embedded as an
`Option`-valued function; the mutable React state cells of the hook are
embedded as an explicit record (`HookState`) threaded through the pure
transition functions; the single mutable timeout handle is embedded as an
`Option Nat` deadline slot; wall-clock instants are naturals (milliseconds)
and opacity / progress values are rationals.
-/

namespace InteractiveAvatar

/-- GestureType from src/types/avatar.ts: the closed gesture label
enumeration (nine labels, including OK and ILoveYou). -/
inductive GestureType where
  | Thumb_Up
  | Thumb_Down
  | Closed_Fist
  | Open_Palm
  | Pointing_Up
  | Victory
  | OK
  | ILoveYou
  | None
deriving DecidableEq, Repr

/-- AvatarState from src/types/avatar.ts. -/
inductive AvatarState where
  | idle
  | active
  | defensive
  | thinking
deriving DecidableEq, Repr

/-- AvatarMood from src/types/avatar.ts. -/
inductive AvatarMood where
  | happy
  | neutral
  | sad
  | excited
  | defensive
  | bored
deriving DecidableEq, Repr

/-- GestureResponse from src/types/avatar.ts. -/
structure GestureResponse where
  state : AvatarState
  mood : AvatarMood
  animation : String
  duration : Nat
  message : String
deriving DecidableEq, Repr

/-- GESTURE_RESPONSES from src/components/avatar/AvatarStates.ts.
The TypeScript object literal has entries for Thumb_Up, Thumb_Down,
Closed_Fist, Open_Palm, Pointing_Up, Victory and None only; looking up any
other key of the declared `Record<GestureType, GestureResponse>` yields
`undefined` at run time, embedded here as `Option.none`. -/
def GESTURE_RESPONSES : GestureType → Option GestureResponse
  | GestureType.Thumb_Up =>
      Option.some { state := AvatarState.active, mood := AvatarMood.happy,
                    animation := "thumbsUp", duration := 2000,
                    message := "Great job! 👍" }
  | GestureType.Thumb_Down =>
      Option.some { state := AvatarState.defensive, mood := AvatarMood.sad,
                    animation := "thumbsDown", duration := 1500,
                    message := "Oh no... 😔" }
  | GestureType.Closed_Fist =>
      Option.some { state := AvatarState.defensive, mood := AvatarMood.defensive,
                    animation := "defensive", duration := 2000,
                    message := "I sense aggression... 🛡️" }
  | GestureType.Open_Palm =>
      Option.some { state := AvatarState.active, mood := AvatarMood.excited,
                    animation := "wave", duration := 2500,
                    message := "Hello there! 👋" }
  | GestureType.Pointing_Up =>
      Option.some { state := AvatarState.active, mood := AvatarMood.excited,
                    animation := "pointAcknowledge", duration := 1800,
                    message := "I see you! 👆" }
  | GestureType.Victory =>
      Option.some { state := AvatarState.active, mood := AvatarMood.excited,
                    animation := "victory", duration := 2200,
                    message := "Victory! ✌️" }
  | GestureType.OK => Option.none
  | GestureType.ILoveYou => Option.none
  | GestureType.None =>
      Option.some { state := AvatarState.idle, mood := AvatarMood.bored,
                    animation := "idle", duration := 1000,
                    message := "Waiting for gestures..." }

/-- getAvatarResponse from src/components/avatar/AvatarStates.ts: with no
person detected it returns the fixed looking-around descriptor, otherwise
the raw `GESTURE_RESPONSES[gestureType]` lookup (no fallback). -/
def getAvatarResponse (gestureType : GestureType) (isPersonDetected : Bool) :
    Option GestureResponse :=
  if isPersonDetected = false then
    Option.some { state := AvatarState.idle, mood := AvatarMood.bored,
                  animation := "lookAround", duration := 3000,
                  message := "Looking for someone to interact with..." }
  else
    GESTURE_RESPONSES gestureType

/-- VideoState from src/hooks/useVideoAvatar.ts (the React state cell of the
hook); `transitionProgress` lives in the rationals. -/
structure VideoState where
  currentVideo : String
  previousVideo : String
  isTransitioning : Bool
  transitionProgress : ℚ
deriving DecidableEq, Repr

/-- VideoTransition from src/hooks/useVideoAvatar.ts; the `from` and `to`
fields are spelled `from_` and `to_` because both are Lean keywords. -/
structure VideoTransition where
  from_ : String
  to_ : String
  duration : Nat
  startTime : Nat
deriving DecidableEq, Repr

/-- TRANSITION_CONFIG from src/hooks/useVideoAvatar.ts. -/
structure TransitionConfig where
  crossfadeDuration : Nat
  gestureResponseDuration : Nat
  transitionEasing : String
deriving DecidableEq, Repr

/-- TRANSITION_CONFIG values: 0.5s crossfade, 3s gesture response. -/
def TRANSITION_CONFIG : TransitionConfig :=
  { crossfadeDuration := 500
    gestureResponseDuration := 3000
    transitionEasing := "ease-in-out" }

/-- Combined mutable state owned by the useVideoAvatar hook: the
`videoState` cell, the `activeTransition` cell, and the single
`transitionTimeoutRef` timeout slot, embedded as the absolute deadline (in
milliseconds) of the armed auto-revert timer, if any.  `clearTimeout`
followed by `setTimeout` is replacement of the slot; at most one timer can
be armed because there is only one slot. -/
structure HookState where
  videoState : VideoState
  activeTransition : Option VideoTransition
  revertTimer : Option Nat
deriving DecidableEq, Repr

/-- gestureToVideo from src/hooks/useVideoAvatar.ts: the
`Record<GestureType, string>` video mapping configuration (all nine labels
present in the object literal). -/
def gestureToVideo : GestureType → Option String
  | GestureType.None => Option.some "idle"
  | GestureType.Thumb_Up => Option.some "idle"
  | GestureType.Thumb_Down => Option.some "idle"
  | GestureType.Closed_Fist => Option.some "idle"
  | GestureType.Open_Palm => Option.some "wave"
  | GestureType.Pointing_Up => Option.some "wave"
  | GestureType.Victory => Option.some "wave"
  | GestureType.OK => Option.some "wave"
  | GestureType.ILoveYou => Option.some "wave"

/-- getTargetVideo from src/hooks/useVideoAvatar.ts:
`gestureToVideo[gestureType] || 'idle'`, with 'idle' whenever no person is
detected. -/
def getTargetVideo (gestureType : GestureType) (isPersonDetected : Bool) :
    String :=
  if isPersonDetected = false then "idle"
  else (gestureToVideo gestureType).getD "idle"

/-- startTransition from src/hooks/useVideoAvatar.ts: early return when the
target equals the current video and no transition is running; otherwise
record a fresh VideoTransition (startTime := now) and replace the video
state wholesale, snapshotting `previousVideo := currentVideo`.  The timeout
slot is untouched by this function. -/
def startTransition (targetVideo : String) (now : Nat) (s : HookState) :
    HookState :=
  if targetVideo = s.videoState.currentVideo ∧
      s.videoState.isTransitioning = false then s
  else
    { videoState :=
        { currentVideo := targetVideo
          previousVideo := s.videoState.currentVideo
          isTransitioning := true
          transitionProgress := 0 }
      activeTransition :=
        Option.some
          { from_ := s.videoState.currentVideo
            to_ := targetVideo
            duration := TRANSITION_CONFIG.crossfadeDuration
            startTime := now }
      revertTimer := s.revertTimer }

/-- handleGestureChange from src/hooks/useVideoAvatar.ts: compute the
target video, start a transition towards it, and — only when the target is
not 'idle' and a person is detected — clear the pending timeout and arm a
new one for `gestureResponseDuration` from now (embedded as replacing the
deadline slot). -/
def handleGestureChange (gestureType : GestureType) (isPersonDetected : Bool)
    (now : Nat) (s : HookState) : HookState :=
  if getTargetVideo gestureType isPersonDetected ≠ "idle" ∧
      isPersonDetected = true then
    { startTransition (getTargetVideo gestureType isPersonDetected) now s with
        revertTimer :=
          Option.some (now + TRANSITION_CONFIG.gestureResponseDuration) }
  else
    startTransition (getTargetVideo gestureType isPersonDetected) now s

/-- One invocation of the animateTransition callback scheduled by
startTransition in src/hooks/useVideoAvatar.ts: recompute
`progress = min(elapsed / duration, 1)` from the wall clock; while below 1
just publish the progress, at 1 publish progress 1, clear
`isTransitioning` and drop the active transition. -/
def animateTick (now : Nat) (s : HookState) : HookState :=
  match s.activeTransition with
  | Option.none => s
  | Option.some t =>
      if (min (Rat.divInt ((now - t.startTime : Nat) : Int)
                 ((t.duration : Nat) : Int)) 1) < 1 then
        { s with videoState :=
            { s.videoState with
                transitionProgress :=
                  min (Rat.divInt ((now - t.startTime : Nat) : Int)
                         ((t.duration : Nat) : Int)) 1 } }
      else
        { s with
            videoState :=
              { s.videoState with
                  isTransitioning := false
                  transitionProgress := 1 }
            activeTransition := Option.none }

/-- Firing of the auto-revert timeout armed by handleGestureChange in
src/hooks/useVideoAvatar.ts: once the armed deadline is reached the
one-shot timer runs `startTransition('idle')` and the slot becomes empty.
Before the deadline, or with no timer armed, nothing happens. -/
def fireRevertTimer (now : Nat) (s : HookState) : HookState :=
  match s.revertTimer with
  | Option.none => s
  | Option.some deadline =>
      if deadline ≤ now then
        { startTransition "idle" now s with revertTimer := Option.none }
      else s

/-- getVideoOpacity from src/hooks/useVideoAvatar.ts: outside a transition
the current video has opacity 1 and every other asset 0; during a
transition the current (incoming) video fades in as `min(progress * 2, 1)`,
the previous (outgoing) video fades out as `max(1 - progress * 2, 0)`, and
any other asset has opacity 0. -/
def getVideoOpacity (s : VideoState) (videoType : String) : ℚ :=
  if s.isTransitioning = false then
    (if s.currentVideo = videoType then 1 else 0)
  else
    if videoType = s.currentVideo then min (s.transitionProgress * 2) 1
    else if videoType = s.previousVideo then
      max (1 - s.transitionProgress * 2) 0
    else 0

/-- Folding a list of detections `(gestureType, isPersonDetected, now)`
through handleGestureChange, in arrival order. -/
def runDetections (s : HookState) :
    List (GestureType × Bool × Nat) → HookState
  | [] => s
  | d :: ds => runDetections (handleGestureChange d.1 d.2.1 d.2.2 s) ds

/-- NormalizedLandmark as delivered by the external detector (coordinates
as rationals). -/
structure NormalizedLandmark where
  x : ℚ
  y : ℚ
  z : ℚ
deriving DecidableEq, Repr

/-- One classified gesture candidate (category name and score) as delivered
by the external detector. -/
structure GestureCategory where
  categoryName : String
  score : ℚ
deriving DecidableEq, Repr

/-- GestureRecognizerResult: per-frame detector output, an ordered set of
gesture candidate lists and an ordered set of landmark point sets. -/
structure GestureRecognizerResult where
  gestures : List (List GestureCategory)
  landmarks : List (List NormalizedLandmark)
deriving DecidableEq, Repr

/-- Mutable state of the Recognizer class in src/lib/Recognizer.ts that the
per-frame loop touches: the cached `results` field and whether a
`resultsCallback` has been registered via onResults. -/
structure RecognizerState where
  results : Option GestureRecognizerResult
  callbackRegistered : Bool
deriving DecidableEq, Repr

/-- Outcome of one `recognizeForVideo` invocation: either a result or a
thrown exception. -/
inductive DetectionOutcome where
  | success (r : GestureRecognizerResult)
  | failure
deriving DecidableEq, Repr

/-- Observable effect of one iteration of the updateResults loop body in
src/lib/Recognizer.ts: the recognizer state afterwards, whether the
downstream results callback was invoked, whether an error was logged, and
whether the next animation-frame iteration was scheduled. -/
structure FrameStep where
  newState : RecognizerState
  callbackInvoked : Bool
  errorLogged : Bool
  loopContinues : Bool
deriving DecidableEq, Repr

/-- One iteration of the updateResults loop body in src/lib/Recognizer.ts:
when the recognizer exists and the video has decodable data it calls
`recognizeForVideo` inside try/catch — on success it stores the result and
invokes the registered callback; on a thrown error it logs the error,
leaves `results` untouched and skips the callback.  In every case
`requestAnimationFrame(updateResults)` reschedules the loop. -/
def updateResults (recognizerReady videoReady : Bool)
    (outcome : DetectionOutcome) (s : RecognizerState) : FrameStep :=
  if recognizerReady = true ∧ videoReady = true then
    match outcome with
    | DetectionOutcome.success r =>
        { newState := { s with results := Option.some r }
          callbackInvoked := s.callbackRegistered
          errorLogged := false
          loopContinues := true }
    | DetectionOutcome.failure =>
        { newState := s
          callbackInvoked := false
          errorLogged := true
          loopContinues := true }
  else
    { newState := s
      callbackInvoked := false
      errorLogged := false
      loopContinues := true }

/-- One frame of the composed pipeline: the Recognizer loop body followed by
an arbitrary downstream consumer of the results callback (the orchestrator
state `hs` is updated only if the callback was invoked).  Returns the
recognizer state, the downstream state and whether the loop continues. -/
def processFrame (recognizerReady videoReady : Bool)
    (outcome : DetectionOutcome) (s : RecognizerState)
    (handler : Option GestureRecognizerResult → HookState → HookState)
    (hs : HookState) : RecognizerState × HookState × Bool :=
  ((updateResults recognizerReady videoReady outcome s).newState,
   (if (updateResults recognizerReady videoReady outcome s).callbackInvoked = true
    then handler (updateResults recognizerReady videoReady outcome s).newState.results hs
    else hs),
   (updateResults recognizerReady videoReady outcome s).loopContinues)

/-- Initial value of the useState cell in useVideoAvatar (currentVideo and
previousVideo 'idle', not transitioning, progress 0), with no active
transition record and no armed timeout. -/
def initialHookState : HookState :=
  { videoState := { currentVideo := "idle", previousVideo := "idle",
                    isTransitioning := false, transitionProgress := 0 }
    activeTransition := Option.none
    revertTimer := Option.none }

/-- Scenario state: halfway through a crossfade into "wave" (progress 1/2)
with an auto-revert timer armed for deadline 3000. -/
def midTransitionWave : HookState :=
  { videoState := { currentVideo := "wave", previousVideo := "idle",
                    isTransitioning := true,
                    transitionProgress := Rat.divInt 1 2 }
    activeTransition :=
      Option.some { from_ := "idle", to_ := "wave", duration := 500,
                    startTime := 0 }
    revertTimer := Option.some 3000 }

/-- Scenario state: steady on "wave" (crossfade finished) with an
auto-revert timer armed for deadline 3000. -/
def waveSteadyWithTimer : HookState :=
  { videoState := { currentVideo := "wave", previousVideo := "idle",
                    isTransitioning := false, transitionProgress := 1 }
    activeTransition := Option.none
    revertTimer := Option.some 3000 }

/-- Scenario trace for the auto-revert timer: from the initial state, an
Open_Palm detection with a person present at time 0 (arming the timer for
deadline 3000), the crossfade completing at time 600, a None detection with
a person present at time 2000 (target 'idle'), and that crossfade
completing at time 2600.  The timer armed at time 0 is still pending. -/
def revertScenarioEnd : HookState :=
  animateTick 2600
    (handleGestureChange GestureType.None true 2000
      (animateTick 600
        (handleGestureChange GestureType.Open_Palm true 0 initialHookState)))

/-
Supporting lemmas shared by the claim theorems below.
-/

/-- startTransition never touches the auto-revert timeout slot. -/
theorem startTransition_revertTimer (targetVideo : String) (now : Nat)
    (s : HookState) :
    (startTransition targetVideo now s).revertTimer = s.revertTimer := by
  unfold startTransition
  by_cases h : (targetVideo = s.videoState.currentVideo ∧
      s.videoState.isTransitioning = false)
  · rw [if_pos h]
  · rw [if_neg h]

/-- When the computed target equals the current video and no transition is
running, handleGestureChange leaves the video state untouched. -/
theorem handleGestureChange_noop_videoState (g : GestureType) (p : Bool)
    (t : Nat) (s : HookState)
    (htar : getTargetVideo g p = s.videoState.currentVideo)
    (htr : s.videoState.isTransitioning = false) :
    (handleGestureChange g p t s).videoState = s.videoState := by
  have hstart : startTransition (getTargetVideo g p) t s = s := by
    unfold startTransition
    rw [if_pos ⟨htar, htr⟩]
  unfold handleGestureChange
  by_cases hc : (getTargetVideo g p ≠ "idle" ∧ p = true)
  · rw [if_pos hc, hstart]
  · rw [if_neg hc, hstart]

/-- Folding detections whose computed target always equals the (stable)
current video through handleGestureChange leaves the video state
untouched. -/
theorem runDetections_videoState :
    ∀ (l : List (GestureType × Bool × Nat)) (s : HookState),
      s.videoState.isTransitioning = false →
      (∀ d ∈ l, getTargetVideo d.1 d.2.1 = s.videoState.currentVideo) →
      (runDetections s l).videoState = s.videoState
  | [], _, _, _ => rfl
  | d :: ds, s, h0, hall => by
      have hd := hall d (List.mem_cons_self d ds)
      have h1 : (handleGestureChange d.1 d.2.1 d.2.2 s).videoState =
          s.videoState :=
        handleGestureChange_noop_videoState d.1 d.2.1 d.2.2 s hd h0
      have h2 := runDetections_videoState ds
        (handleGestureChange d.1 d.2.1 d.2.2 s)
        (by rw [h1]; exact h0)
        (by intro e he; rw [h1]; exact hall e (List.mem_cons_of_mem d he))
      show (runDetections (handleGestureChange d.1 d.2.1 d.2.2 s) ds).videoState
          = s.videoState
      rw [h2, h1]

/-- Claim C1 (code-bug evidence): the classifier map is not a total
function over the closed gesture label enumeration.  With a person present
the labels OK and ILoveYou are unmapped (the GESTURE_RESPONSES object
literal has no entry for them despite its declared Record type), and
getAvatarResponse returns the raw lookup for every label with no resting
fallback, so the undefined result propagates instead of failing safe. -/
theorem gesture_map_unmapped_labels_undefined :
    getAvatarResponse GestureType.OK true = Option.none ∧
    getAvatarResponse GestureType.ILoveYou true = Option.none ∧
    ∀ g : GestureType, getAvatarResponse g true = GESTURE_RESPONSES g :=
  ⟨rfl, rfl, fun _ => rfl⟩

/-- Claim C6: with no person detected, every gesture label classifies to
the same resting looking-for-a-person descriptor, and that descriptor is
distinct from the one returned for label None with a person present. -/
theorem classifier_person_absence_override :
    (∀ g : GestureType,
      getAvatarResponse g false = getAvatarResponse GestureType.None false) ∧
    getAvatarResponse GestureType.None true ≠
      getAvatarResponse GestureType.None false :=
  ⟨fun _ => rfl, by decide⟩

/-- Claim C8: when the detector invocation throws on a frame (recognizer
and video both ready), the error is logged, the recognizer state is
unchanged, the downstream results callback is not invoked — so any
downstream orchestrator state is identical before and after the frame —
and the next loop iteration is still scheduled. -/
theorem frame_failure_skips_callback (s : RecognizerState)
    (handler : Option GestureRecognizerResult → HookState → HookState)
    (hs : HookState) :
    updateResults true true DetectionOutcome.failure s =
      { newState := s, callbackInvoked := false, errorLogged := true,
        loopContinues := true } ∧
    processFrame true true DetectionOutcome.failure s handler hs =
      (s, hs, true) :=
  ⟨rfl, rfl⟩

/-- Claim C2 (counterexample): from a steady "wave" state with a revert
timer armed for deadline 3000, the detection (None, person present) at
time 2000 starts a new transition — its target is the resting behavior
"idle" — yet the pending revert timer is not cancelled: it stays armed. -/
theorem idle_transition_leaves_timer_armed :
    (handleGestureChange GestureType.None true 2000
        waveSteadyWithTimer).videoState.isTransitioning = true ∧
    (handleGestureChange GestureType.None true 2000
        waveSteadyWithTimer).videoState.currentVideo = "idle" ∧
    (handleGestureChange GestureType.None true 2000
        waveSteadyWithTimer).revertTimer = Option.some 3000 := by
  decide

/-- Claim C2 (amended): the pending revert timer is cancelled and replaced
exactly when a new timer is armed — when the computed target is non-resting
and a person is present; every other detection, including one that starts a
transition to the resting behavior "idle", leaves the timer slot unchanged.
As the slot is unique, at most one revert timer is armed at any time. -/
theorem revert_timer_cancel_on_arm_only (g : GestureType) (p : Bool)
    (now : Nat) (s : HookState) :
    (getTargetVideo g p ≠ "idle" ∧ p = true →
      (handleGestureChange g p now s).revertTimer =
        Option.some (now + TRANSITION_CONFIG.gestureResponseDuration)) ∧
    (¬(getTargetVideo g p ≠ "idle" ∧ p = true) →
      (handleGestureChange g p now s).revertTimer = s.revertTimer) := by
  constructor
  · intro h
    unfold handleGestureChange
    rw [if_pos h]
  · intro h
    unfold handleGestureChange
    rw [if_neg h]
    exact startTransition_revertTimer _ _ _

/-- Witness for the amended Claim C2 theorem at a concrete input: an
Open_Palm detection with a person present at time 0 arms the timer. -/
theorem revert_timer_cancel_on_arm_only_witness :
    (handleGestureChange GestureType.Open_Palm true 0
        initialHookState).revertTimer =
      Option.some (0 + TRANSITION_CONFIG.gestureResponseDuration) :=
  (revert_timer_cancel_on_arm_only GestureType.Open_Palm true 0
      initialHookState).1 (by decide)

/-- Claim C3 (counterexample): calling startTransition with the current
behavior "wave" while a transition is in progress is not a no-op — it
restarts the transition, re-snapshotting previousVideo to "wave" and
resetting the progress from 1/2 to 0. -/
theorem restart_while_transitioning_not_noop :
    startTransition "wave" 250 midTransitionWave ≠ midTransitionWave ∧
    (startTransition "wave" 250
        midTransitionWave).videoState.transitionProgress = 0 ∧
    (startTransition "wave" 250
        midTransitionWave).videoState.previousVideo = "wave" := by
  decide

/-- Claim C3 (amended): startTransition towards the current behavior X is a
no-op only when no transition is running; if isTransitioning is true it
restarts the transition, re-snapshotting previousVideo to X and resetting
the progress to 0. -/
theorem startTransition_same_target_cases (s : HookState) (X : String)
    (now : Nat) (hcur : s.videoState.currentVideo = X) :
    (s.videoState.isTransitioning = false → startTransition X now s = s) ∧
    (s.videoState.isTransitioning = true →
      (startTransition X now s).videoState =
        { currentVideo := X, previousVideo := X, isTransitioning := true,
          transitionProgress := 0 }) := by
  constructor
  · intro h
    unfold startTransition
    rw [if_pos ⟨hcur.symm, h⟩]
  · intro h
    have hng : ¬(X = s.videoState.currentVideo ∧
        s.videoState.isTransitioning = false) := by
      rintro ⟨-, hf⟩
      rw [h] at hf
      cases hf
    unfold startTransition
    rw [if_neg hng, hcur]

/-- Witness for the amended Claim C3 theorem at a concrete input: from the
initial idle state, startTransition to "idle" is a no-op. -/
theorem startTransition_same_target_cases_witness :
    startTransition "idle" 0 initialHookState = initialHookState :=
  (startTransition_same_target_cases initialHookState "idle" 0 rfl).1 rfl

/-- Claim C4: a detection whose computed target differs from the current
video starts exactly one transition: previousVideo is snapshotted to the
video current at the instant of the change (whether or not a prior
transition was still incomplete), currentVideo becomes the target,
isTransitioning is true, progress is 0, and a single fresh VideoTransition
record (with the configured crossfade duration and startTime now) becomes
the active transition. -/
theorem changed_target_transition_postcondition (g : GestureType) (p : Bool)
    (now : Nat) (s : HookState)
    (h : getTargetVideo g p ≠ s.videoState.currentVideo) :
    (handleGestureChange g p now s).videoState =
      { currentVideo := getTargetVideo g p
        previousVideo := s.videoState.currentVideo
        isTransitioning := true
        transitionProgress := 0 } ∧
    (handleGestureChange g p now s).activeTransition =
      Option.some
        { from_ := s.videoState.currentVideo
          to_ := getTargetVideo g p
          duration := TRANSITION_CONFIG.crossfadeDuration
          startTime := now } := by
  have hng : ¬(getTargetVideo g p = s.videoState.currentVideo ∧
      s.videoState.isTransitioning = false) := fun hc => h hc.1
  unfold handleGestureChange
  by_cases hcond : (getTargetVideo g p ≠ "idle" ∧ p = true)
  · rw [if_pos hcond]
    unfold startTransition
    rw [if_neg hng]
    exact ⟨rfl, rfl⟩
  · rw [if_neg hcond]
    unfold startTransition
    rw [if_neg hng]
    exact ⟨rfl, rfl⟩

/-- Witness for the Claim C4 theorem at a concrete input: an Open_Palm
detection with a person present at time 5 from the initial idle state. -/
theorem changed_target_transition_postcondition_witness :
    (handleGestureChange GestureType.Open_Palm true 5
        initialHookState).videoState =
      { currentVideo := getTargetVideo GestureType.Open_Palm true
        previousVideo := initialHookState.videoState.currentVideo
        isTransitioning := true
        transitionProgress := 0 } :=
  (changed_target_transition_postcondition GestureType.Open_Palm true 5
      initialHookState (by decide)).1

/-- Claim C5 (counterexample): in the revert scenario trace the timer armed
by the qualifying Open_Palm detection reaches its deadline without ever
being cancelled (the later None detection does not qualify and leaves it
armed), yet when it fires no transition targeting the resting behavior
begins: the state is already resting, the video state is unchanged and
isTransitioning stays false. -/
theorem revert_fire_no_transition_trace :
    revertScenarioEnd.revertTimer = Option.some 3000 ∧
    revertScenarioEnd.videoState.currentVideo = "idle" ∧
    fireRevertTimer 3000 revertScenarioEnd =
      { revertScenarioEnd with revertTimer := Option.none } ∧
    (fireRevertTimer 3000 revertScenarioEnd).videoState.isTransitioning =
      false := by
  decide

/-- Claim C5 (amended): a detection with a non-resting target and a person
present always arms the revert timer for gestureResponseDuration from now,
replacing whatever deadline was armed before (last gesture wins, so a new
qualifying gesture before the deadline cancels the old timer); when an
armed timer reaches its deadline it runs the transition routine targeting
the resting behavior and disarms itself, which begins a transition to
"idle" provided the state is not already resting with no crossfade in
progress (otherwise the firing is a no-op on the video state). -/
theorem revert_timer_arm_fire_cancel :
    (∀ (g : GestureType) (p : Bool) (now : Nat) (s : HookState),
      getTargetVideo g p ≠ "idle" → p = true →
      (handleGestureChange g p now s).revertTimer =
        Option.some (now + TRANSITION_CONFIG.gestureResponseDuration)) ∧
    (∀ (s : HookState) (d now : Nat),
      s.revertTimer = Option.some d → d ≤ now →
      (s.videoState.currentVideo ≠ "idle" ∨
        s.videoState.isTransitioning = true) →
      (fireRevertTimer now s).videoState.currentVideo = "idle" ∧
      (fireRevertTimer now s).videoState.isTransitioning = true ∧
      (fireRevertTimer now s).revertTimer = Option.none) := by
  constructor
  · intro g p now s htar hp
    unfold handleGestureChange
    rw [if_pos ⟨htar, hp⟩]
  · intro s d now hd hle hcase
    have hng : ¬("idle" = s.videoState.currentVideo ∧
        s.videoState.isTransitioning = false) := by
      rintro ⟨h1, h2⟩
      rcases hcase with hc | hc
      · exact hc h1.symm
      · rw [hc] at h2
        cases h2
    unfold fireRevertTimer
    rw [hd]
    simp only [if_pos hle]
    unfold startTransition
    rw [if_neg hng]
    exact ⟨rfl, rfl, trivial⟩

/-- Witness for the amended Claim C5 theorem at concrete inputs: arming by
an Open_Palm detection from the initial state, and firing at deadline 3000
from a steady non-resting "wave" state. -/
theorem revert_timer_arm_fire_cancel_witness :
    (handleGestureChange GestureType.Open_Palm true 100
        initialHookState).revertTimer =
      Option.some (100 + TRANSITION_CONFIG.gestureResponseDuration) ∧
    (fireRevertTimer 3000 waveSteadyWithTimer).videoState.currentVideo =
      "idle" ∧
    (fireRevertTimer 3000 waveSteadyWithTimer).videoState.isTransitioning =
      true :=
  ⟨revert_timer_arm_fire_cancel.1 GestureType.Open_Palm true 100
      initialHookState (by decide) rfl,
    (revert_timer_arm_fire_cancel.2 waveSteadyWithTimer 3000 3000 rfl
      (by decide) (Or.inl (by decide))).1,
    (revert_timer_arm_fire_cancel.2 waveSteadyWithTimer 3000 3000 rfl
      (by decide) (Or.inl (by decide))).2.1⟩

/-- Claim C7: along any sequence of detections whose computed target always
equals the (stable) current behavior, started from a non-transitioning
state, isTransitioning is false after every prefix of the sequence —
repeated identical detections never start a transition. -/
theorem repeated_identical_detections_no_transition (s : HookState)
    (ds pre suf : List (GestureType × Bool × Nat))
    (h0 : s.videoState.isTransitioning = false)
    (hall : ∀ d ∈ ds, getTargetVideo d.1 d.2.1 = s.videoState.currentVideo)
    (hpre : pre ++ suf = ds) :
    (runDetections s pre).videoState.isTransitioning = false := by
  have hp : ∀ d ∈ pre, getTargetVideo d.1 d.2.1 =
      s.videoState.currentVideo := by
    intro d hd
    exact hall d (hpre ▸ List.mem_append_left suf hd)
  rw [runDetections_videoState pre s h0 hp]
  exact h0

/-- Witness for the Claim C7 theorem at a concrete input: two successive
idle-target detections (None and Thumb_Up, person present) from the
initial state leave isTransitioning false. -/
theorem repeated_identical_detections_no_transition_witness :
    (runDetections initialHookState
      [(GestureType.None, true, 0),
       (GestureType.Thumb_Up, true, 100)]).videoState.isTransitioning =
      false :=
  repeated_identical_detections_no_transition initialHookState
    [(GestureType.None, true, 0), (GestureType.Thumb_Up, true, 100)]
    [(GestureType.None, true, 0), (GestureType.Thumb_Up, true, 100)] []
    rfl (by decide) rfl

/-- Claim C9 (counterexample): during a crossfade from "idle" into "wave"
there is no progress value at which the incoming asset is already at full
opacity while the outgoing asset is still visible — the incoming weight
reaches 1 exactly when the outgoing weight reaches 0, never strictly
before. -/
theorem incoming_never_full_before_outgoing_gone :
    ¬ ∃ p : ℚ,
      getVideoOpacity
        { currentVideo := "wave", previousVideo := "idle",
          isTransitioning := true, transitionProgress := p } "wave" = 1 ∧
      0 < getVideoOpacity
        { currentVideo := "wave", previousVideo := "idle",
          isTransitioning := true, transitionProgress := p } "idle" := by
  rintro ⟨p, h1, h2⟩
  have e1 : getVideoOpacity
      { currentVideo := "wave", previousVideo := "idle",
        isTransitioning := true, transitionProgress := p } "wave" =
      min (p * 2) 1 := rfl
  have e2 : getVideoOpacity
      { currentVideo := "wave", previousVideo := "idle",
        isTransitioning := true, transitionProgress := p } "idle" =
      max (1 - p * 2) 0 := rfl
  rw [e1] at h1
  rw [e2] at h2
  have hge : (1 : ℚ) ≤ p * 2 := min_eq_right_iff.mp h1
  have hmax : max (1 - p * 2) 0 = 0 := max_eq_right (by linarith)
  rw [hmax] at h2
  exact lt_irrefl 0 h2

/-- Claim C9 (amended): outside a transition an asset has weight 1 exactly
when it is the current behavior; during a transition the incoming asset
weighs min(progress * 2, 1), ramping 0 to 1 and saturating at 1 from the
halfway point on, the outgoing asset weighs max(1 - progress * 2, 0),
ramping 1 to 0 and reaching 0 from the halfway point on, any other asset
weighs 0, the two weights sum to 1 at every progress, and the incoming
asset is at full opacity from exactly the instant (not strictly before) the
outgoing asset fully disappears. -/
theorem crossfade_weight_schedule (s : VideoState) (v : String) :
    (s.isTransitioning = false →
      getVideoOpacity s v = (if s.currentVideo = v then 1 else 0)) ∧
    (s.isTransitioning = true → v = s.currentVideo →
      getVideoOpacity s v = min (s.transitionProgress * 2) 1) ∧
    (s.isTransitioning = true → v ≠ s.currentVideo → v = s.previousVideo →
      getVideoOpacity s v = max (1 - s.transitionProgress * 2) 0) ∧
    (s.isTransitioning = true → v ≠ s.currentVideo → v ≠ s.previousVideo →
      getVideoOpacity s v = 0) ∧
    (s.isTransitioning = true → v = s.currentVideo →
      1 ≤ s.transitionProgress * 2 → getVideoOpacity s v = 1) ∧
    (s.isTransitioning = true → v ≠ s.currentVideo → v = s.previousVideo →
      1 ≤ s.transitionProgress * 2 → getVideoOpacity s v = 0) ∧
    (s.isTransitioning = true → s.currentVideo ≠ s.previousVideo →
      getVideoOpacity s s.currentVideo +
        getVideoOpacity s s.previousVideo = 1) ∧
    (s.isTransitioning = true → s.currentVideo ≠ s.previousVideo →
      getVideoOpacity s s.previousVideo = 0 →
      getVideoOpacity s s.currentVideo = 1) := by
  have hin : ∀ w : String, s.isTransitioning = true → w = s.currentVideo →
      getVideoOpacity s w = min (s.transitionProgress * 2) 1 := by
    intro w ht hv
    unfold getVideoOpacity
    rw [if_neg (by simp [ht]), if_pos hv]
  have hout : ∀ w : String, s.isTransitioning = true →
      w ≠ s.currentVideo → w = s.previousVideo →
      getVideoOpacity s w = max (1 - s.transitionProgress * 2) 0 := by
    intro w ht hv hvp
    unfold getVideoOpacity
    rw [if_neg (by simp [ht]), if_neg hv, if_pos hvp]
  refine ⟨?_, hin v, hout v, ?_, ?_, ?_, ?_, ?_⟩
  · intro h
    unfold getVideoOpacity
    rw [if_pos h]
  · intro ht hv hvp
    unfold getVideoOpacity
    rw [if_neg (by simp [ht]), if_neg hv, if_neg hvp]
  · intro ht hv hge
    rw [hin v ht hv]
    exact min_eq_right hge
  · intro ht hv hvp hge
    rw [hout v ht hv hvp]
    exact max_eq_right (by linarith)
  · intro ht hne
    have hc : getVideoOpacity s s.currentVideo =
        min (s.transitionProgress * 2) 1 := hin s.currentVideo ht rfl
    have hp : getVideoOpacity s s.previousVideo =
        max (1 - s.transitionProgress * 2) 0 :=
      hout s.previousVideo ht (fun he => hne he.symm) rfl
    rw [hc, hp]
    rcases le_total (s.transitionProgress * 2) 1 with hle | hle
    · rw [min_eq_left hle, max_eq_left (by linarith)]
      ring
    · rw [min_eq_right hle, max_eq_right (by linarith)]
      ring
  · intro ht hne hzero
    have hc : getVideoOpacity s s.currentVideo =
        min (s.transitionProgress * 2) 1 := hin s.currentVideo ht rfl
    have hp : getVideoOpacity s s.previousVideo =
        max (1 - s.transitionProgress * 2) 0 :=
      hout s.previousVideo ht (fun he => hne he.symm) rfl
    rw [hp] at hzero
    have hge : (1 : ℚ) ≤ s.transitionProgress * 2 := by
      by_contra hlt
      push_neg at hlt
      have : max (1 - s.transitionProgress * 2) 0 =
          1 - s.transitionProgress * 2 := max_eq_left (by linarith)
      rw [this] at hzero
      linarith
    rw [hc]
    exact min_eq_right hge

/-- Witness for the amended Claim C9 theorem at concrete inputs: the
resting asset has full weight outside a transition, and the incoming asset
has full weight at progress 1. -/
theorem crossfade_weight_schedule_witness :
    getVideoOpacity
      { currentVideo := "idle", previousVideo := "idle",
        isTransitioning := false, transitionProgress := 0 } "idle" = 1 ∧
    getVideoOpacity
      { currentVideo := "wave", previousVideo := "idle",
        isTransitioning := true, transitionProgress := 1 } "wave" = 1 :=
  ⟨by
    have h := (crossfade_weight_schedule
      { currentVideo := "idle", previousVideo := "idle",
        isTransitioning := false, transitionProgress := 0 } "idle").1 rfl
    simpa using h,
   (crossfade_weight_schedule
      { currentVideo := "wave", previousVideo := "idle",
        isTransitioning := true, transitionProgress := 1 } "wave").2.2.2.2.1
      rfl rfl (by norm_num)⟩

/-- Claim C10: the gestures None, Thumb_Up, Thumb_Down and Closed_Fist all
map to the resting video "idle" — for them, with or without a person, the
computed target is the resting behavior and handleGestureChange never arms
the revert timer — while Open_Palm, Pointing_Up, Victory, OK and ILoveYou
map to "wave", and with a person present they produce a non-resting target
and arm the revert timer. -/
theorem gesture_video_mapping_partition (g : GestureType) (p : Bool)
    (now : Nat) (s : HookState) :
    ((g = GestureType.None ∨ g = GestureType.Thumb_Up ∨
        g = GestureType.Thumb_Down ∨ g = GestureType.Closed_Fist) →
      getTargetVideo g p = "idle" ∧
      (handleGestureChange g p now s).revertTimer = s.revertTimer) ∧
    ((g = GestureType.Open_Palm ∨ g = GestureType.Pointing_Up ∨
        g = GestureType.Victory ∨ g = GestureType.OK ∨
        g = GestureType.ILoveYou) → p = true →
      getTargetVideo g p = "wave" ∧
      (handleGestureChange g p now s).revertTimer =
        Option.some (now + TRANSITION_CONFIG.gestureResponseDuration)) := by
  constructor
  · intro hg
    have htar : getTargetVideo g p = "idle" := by
      rcases hg with h | h | h | h <;> subst h <;> cases p <;> rfl
    refine ⟨htar, ?_⟩
    have hng : ¬(getTargetVideo g p ≠ "idle" ∧ p = true) := fun hc =>
      hc.1 htar
    unfold handleGestureChange
    rw [if_neg hng]
    exact startTransition_revertTimer _ _ _
  · intro hg hp
    subst hp
    have htar : getTargetVideo g true = "wave" := by
      rcases hg with h | h | h | h | h <;> subst h <;> rfl
    refine ⟨htar, ?_⟩
    have hcond : getTargetVideo g true ≠ "idle" ∧ (true : Bool) = true := by
      rw [htar]
      exact ⟨by decide, rfl⟩
    unfold handleGestureChange
    rw [if_pos hcond]

/-- Witness for the Claim C10 theorem at concrete inputs: None maps to the
resting target and leaves the timer slot unchanged; OK maps to "wave" and
arms the timer. -/
theorem gesture_video_mapping_partition_witness :
    (getTargetVideo GestureType.None true = "idle" ∧
      (handleGestureChange GestureType.None true 0
          initialHookState).revertTimer = initialHookState.revertTimer) ∧
    (handleGestureChange GestureType.OK true 7
        initialHookState).revertTimer =
      Option.some (7 + TRANSITION_CONFIG.gestureResponseDuration) :=
  ⟨(gesture_video_mapping_partition GestureType.None true 0
      initialHookState).1 (Or.inl rfl),
   ((gesture_video_mapping_partition GestureType.OK true 7
      initialHookState).2 (Or.inr (Or.inr (Or.inr (Or.inl rfl)))) rfl).2⟩

end InteractiveAvatar
